import Mathlib

/-!
Verification of the sleep-score repository core: a shallow embedding of
the time-axis alignment, the stage-breakdown percentage computation, the
1-D CNN structural shape contract and the channel-importance extraction
from `sleep_quality_analysis.py` and `sleepqualityvisualization.py`.

Timestamps and sample values are embedded as rationals (seconds since an
arbitrary epoch).  Python runtime exceptions raised by the translated
expressions (ZeroDivisionError, IndexError, numpy AxisError, Keras shape
ValueError) are embedded as an `Except` error result; IEEE NaN produced
by a 0/0 numpy division is embedded as `Option.none`.
-/

/-- Runtime failures the translated Python expressions can raise.  The
last three constructors are the error taxonomy the design document asks
for; the translated code itself only ever produces the first four. -/
inductive PyError where
  | zeroDivision
  | indexError
  | axisError
  | valueError
  | shapeMismatch
  | degenerateInput
  | invalidInput
  deriving DecidableEq, Repr

instance {ε α : Type} [DecidableEq ε] [DecidableEq α] : DecidableEq (Except ε α) := fun a b =>
  match a, b with
  | Except.error e, Except.error f =>
    if h : e = f then isTrue (by rw [h])
    else isFalse (fun hc => by injection hc; contradiction)
  | Except.ok x, Except.ok y =>
    if h : x = y then isTrue (by rw [h])
    else isFalse (fun hc => by injection hc; contradiction)
  | Except.error _, Except.ok _ => isFalse (fun hc => Except.noConfusion hc)
  | Except.ok _, Except.error _ => isFalse (fun hc => Except.noConfusion hc)

/-- Left-to-right sequencing of fallible element computations, as a
Python list comprehension evaluates them: the first raised error aborts
the whole comprehension. -/
def exceptSeq {α : Type} : List (Except PyError α) → Except PyError (List α)
  | [] => Except.ok []
  | x :: xs =>
    match x with
    | Except.error e => Except.error e
    | Except.ok a =>
      match exceptSeq xs with
      | Except.error e => Except.error e
      | Except.ok rest => Except.ok (a :: rest)

/-- Python true division: raises ZeroDivisionError on a zero divisor
(for int, float and timedelta dividends alike). -/
def pyDiv (a b : ℚ) : Except PyError ℚ :=
  if b = 0 then Except.error PyError.zeroDivision else Except.ok (a / b)

/-- Timestamp at index `i` of the analysis-module charts
(`sleep_quality_analysis.py` lines 42, 63, 84, 106):
`start + (end - start) * i/(n-1)`, where the division is timedelta by
int and raises ZeroDivisionError when `n - 1 == 0`. -/
def alignTime (start finish : ℚ) (n i : ℕ) : Except PyError ℚ :=
  (pyDiv ((finish - start) * (i : ℚ)) ((n : ℚ) - 1)).map (fun q => start + q)

/-- The timestamp list `[start + (end - start) * i/(n-1) for i in range(n)]`
built by every continuous-channel chart of `sleep_quality_analysis.py`. -/
def alignTimes (start finish : ℚ) (n : ℕ) : Except PyError (List ℚ) :=
  exceptSeq ((List.range n).map (alignTime start finish n))

/-- Timestamp at index `i` of `generate_heart_rate_chart` in
`sleepqualityvisualization.py` lines 167-168:
`duration = (end - start).total_seconds() / 3600` and then
`start + timedelta(hours=duration * i / len(hr))`; dividing by
`len(hr) == 0` raises ZeroDivisionError. -/
def vizAlignTime (start finish : ℚ) (n i : ℕ) : Except PyError ℚ :=
  (pyDiv ((finish - start) / 3600 * (i : ℚ)) (n : ℚ)).map
    (fun h => start + 3600 * h)

/-- The timestamp list of `generate_heart_rate_chart` in
`sleepqualityvisualization.py`: `n` samples spaced `1/n` of the session,
so the last timestamp falls one step short of `end`. -/
def vizAlignTimes (start finish : ℚ) (n : ℕ) : Except PyError (List ℚ) :=
  exceptSeq ((List.range n).map (vizAlignTime start finish n))

/-- Total duration `sum(stages.values())` computed by both stage-chart
functions (`sleep_quality_analysis.py` line 126,
`sleepqualityvisualization.py` line 140). -/
def stagesTotal (s : List (String × ℚ)) : ℚ :=
  (s.map Prod.snd).sum

/-- Python `stages.get(stage, 0)`: the value stored under the key, with
default 0 when the key is absent. -/
def stageGet (s : List (String × ℚ)) (k : String) : ℚ :=
  ((s.find? (fun p => p.1 = k)).map Prod.snd).getD 0

/-- Round-half-even to an integer, the rounding the Python `.1f` format
applies to an exactly representable value: ties go to the even
neighbour. -/
def rhe (x : ℚ) : ℤ :=
  if x - ⌊x⌋ < 1/2 then ⌊x⌋
  else if 1/2 < x - ⌊x⌋ then ⌊x⌋ + 1
  else if ⌊x⌋ % 2 = 0 then ⌊x⌋ else ⌊x⌋ + 1

/-- Rounding to one decimal place, as the `{:.1f}` label format of both
stage-chart functions displays the percentage. -/
def roundTo1 (x : ℚ) : ℚ :=
  (rhe (10 * x) : ℚ) / 10

/-- One wedge label of the stage chart: the stage name, its absolute
minutes, and its percentage of the total rounded to one decimal. -/
structure StageLabel where
  name : String
  minutes : ℚ
  pct : ℚ
  deriving DecidableEq, Repr

/-- Label text of one stage: evaluates `dur / total * 100` (raising
ZeroDivisionError when the total is zero, exactly as the Python
expression does) and rounds it to one decimal place. -/
def stageLabel (s : List (String × ℚ)) (total : ℚ) (st : String) :
    Except PyError StageLabel :=
  (pyDiv (stageGet s st) total).map (fun q => ⟨st, stageGet s st, roundTo1 (q * 100)⟩)

/-- The four fixed stages, in the order both chart functions iterate. -/
def stageNames : List String :=
  ["deep", "rem", "light", "awake"]

/-- The stage-breakdown computation shared by
`generate_sleep_stage_pie_chart` (`sleep_quality_analysis.py` lines
121-135) and `generate_sleep_structure_chart`
(`sleepqualityvisualization.py` lines 131-154): one label per fixed
stage, built left to right; the percentage division is performed with no
preceding zero-total check, so a zero total raises ZeroDivisionError at
the first label. -/
def generate_sleep_stage_pie_chart (s : List (String × ℚ)) :
    Except PyError (List StageLabel) :=
  exceptSeq (stageNames.map (stageLabel s (stagesTotal s)))

/-- One Keras layer of `build_sleep_cnn`, keeping the constructor
arguments that matter to shape propagation and weight extraction.  A
Conv1D kernel is indexed `(kernel position, input channel, filter)`,
matching the Keras weight layout `(kernel_size, input_dim, filters)`. -/
inductive Layer where
  | inputL (timesteps features : ℕ)
  | conv1d (filters kernelSize : ℕ) (kernel : List (List (List ℚ)))
  | maxPool (poolSize : ℕ)
  | globalAvgPool
  | dense (units : ℕ)
  deriving DecidableEq

/-- A built Keras functional model: its layer list, in construction
order (the Input layer is `layers[0]`). -/
structure KModel where
  layers : List Layer
  deriving DecidableEq

/-- A freshly initialized Conv1D kernel of shape
`(kernelSize, inCh, filters)`: entry values come from the initializer
function, which stands for the random initialization (or subsequent
training) Keras applies — the structural claims hold for every value
assignment. -/
def convKernel (kernelSize inCh filters : ℕ) (init : ℕ → ℕ → ℕ → ℚ) :
    List (List (List ℚ)) :=
  (List.range kernelSize).map (fun a =>
    (List.range inCh).map (fun b =>
      (List.range filters).map (fun c => init a b c)))

/-- The model of `build_sleep_cnn` (`sleep_quality_analysis.py` lines
139-149): Input over `(input_length, channels)` — the Python default for
`channels` is 4 — then Conv1D(32, kernel 5, same padding), MaxPooling1D
with pool 2, Conv1D(64, kernel 5, same padding),
GlobalAveragePooling1D, and Dense(1). -/
def build_sleep_cnn (input_length channels : ℕ)
    (init1 init2 : ℕ → ℕ → ℕ → ℚ) : KModel :=
  ⟨[Layer.inputL input_length channels,
    Layer.conv1d 32 5 (convKernel 5 channels 32 init1),
    Layer.maxPool 2,
    Layer.conv1d 64 5 (convKernel 5 32 64 init2),
    Layer.globalAvgPool,
    Layer.dense 1]⟩

/-- Whether a layer is a Conv1D layer. -/
def isConvLayer : Layer → Bool
  | Layer.conv1d _ _ _ => true
  | _ => false

/-- The rank-3 kernel `layer.get_weights()[0]` of a layer: Input,
MaxPooling1D and GlobalAveragePooling1D carry no weights, so indexing
`[0]` raises IndexError; a Dense kernel is rank 2, so the later
`np.sum(..., axis=(0, 2))` raises a numpy AxisError. -/
def layerKernel3 : Layer → Except PyError (List (List (List ℚ)))
  | Layer.conv1d _ _ k => Except.ok k
  | Layer.dense _ => Except.error PyError.axisError
  | _ => Except.error PyError.indexError

/-- Entry `c` of `np.sum(np.abs(w), axis=(0, 2))`: the sum of absolute
values over the kernel-position and filter axes for input channel `c`. -/
def channelAbsSum (w : List (List (List ℚ))) (c : ℕ) : ℚ :=
  (w.map (fun plane => (((plane.get? c).getD []).map (fun x => |x|)).sum)).sum

/-- Total absolute weight over the four fixed input channels. -/
def totalAbs4 (w : List (List (List ℚ))) : ℚ :=
  channelAbsSum w 0 + channelAbsSum w 1 + channelAbsSum w 2 + channelAbsSum w 3

/-- A numpy float division whose numerator vanishes whenever the
denominator does (the normalization step divides channel sums by their
total): denominator zero produces NaN, embedded as `none`. -/
def nanDiv (a b : ℚ) : Option ℚ :=
  if b = 0 then none else some (a / b)

/-- The fixed channel-name order shared by the whole module. -/
def channelNames : List String :=
  ["heart_rate", "hrv", "spo2", "wrist_temp"]

/-- The normalization core of `compute_channel_importance`
(`sleep_quality_analysis.py` lines 154-158) applied to a kernel `w`:
`abs_sum = np.sum(np.abs(w), axis=(0, 2))`, `norms = abs_sum /
np.sum(abs_sum)`, then the dict `{names[i]: norms[i] for i in
range(4)}` — `norms[i]` raises IndexError when `w` has fewer than 4
input channels, and silently uses only the first four entries when it
has more. -/
def importanceOfKernel (w : List (List (List ℚ))) :
    Except PyError (List (String × Option ℚ)) :=
  let channels := ((w.head?).getD []).length
  let absSums := (List.range channels).map (channelAbsSum w)
  let total := absSums.sum
  if channels < 4 then Except.error PyError.indexError
  else Except.ok ((List.range 4).map (fun i =>
    (channelNames.getD i (""), nanDiv (absSums.getD i 0) total)))

/-- `compute_channel_importance(cnn_model)`: reads
`cnn_model.layers[1].get_weights()[0]` — a positional index, not a
search for the first convolutional layer — and normalizes its per-input-
channel absolute sums. -/
def compute_channel_importance (m : KModel) :
    Except PyError (List (String × Option ℚ)) :=
  match m.layers.get? 1 with
  | none => Except.error PyError.indexError
  | some l => (layerKernel3 l).bind importanceOfKernel

/-- Whether a model has at least one convolutional layer with exactly 4
input channels — the §4.4 precondition. -/
def hasConv4 (m : KModel) : Bool :=
  m.layers.any (fun l =>
    match l with
    | Layer.conv1d _ _ w => !w.isEmpty && w.all (fun p => p.length == 4)
    | _ => false)

/-- The §4.4 output contract as the claim states it, used to exhibit
models on which the code fails it: the call succeeds with the four fixed
channel names mapped to non-negative numeric weights whose sum is 1
within 1e-6. -/
def importanceOutputInvariant (m : KModel) : Prop :=
  ∃ l, compute_channel_importance m = Except.ok l
    ∧ l.map Prod.fst = channelNames
    ∧ (∀ p ∈ l, ∃ q, p.2 = some q ∧ 0 ≤ q)
    ∧ |((l.map (fun p => p.2.getD 0)).sum) - 1| ≤ 1/1000000

/-- Re-scaling of the output channels of a kernel: filter `j` of every
kernel position and input channel is multiplied by `cs[j]`. -/
def scaleOutputs (cs : List ℚ) (w : List (List (List ℚ))) :
    List (List (List ℚ)) :=
  w.map (fun plane => plane.map (fun row =>
    List.zipWith (fun x c => x * c) row cs))

/-- Uniform re-scaling of a whole kernel by one scalar. -/
def scaleAll (c : ℚ) (w : List (List (List ℚ))) : List (List (List ℚ)) :=
  w.map (fun plane => plane.map (fun row => row.map (fun x => c * x)))

/-- Shape propagation of one layer on a `(timesteps, features)` input
shape.  The Input layer enforces its declared static shape, as Keras
rejects a predict call whose input disagrees with it; both Conv1D layers
use same padding and stride 1, so they preserve the timestep count;
GlobalAveragePooling1D collapses the time axis, encoded as a single
remaining step. -/
def layerOutShape : Layer → ℕ × ℕ → Except PyError (ℕ × ℕ)
  | Layer.inputL t f, (l, c) =>
      if l = t ∧ c = f then Except.ok (l, c) else Except.error PyError.valueError
  | Layer.conv1d filters _ _, (l, _) => Except.ok (l, filters)
  | Layer.maxPool p, (l, c) => Except.ok (l / p, c)
  | Layer.globalAvgPool, (_, c) => Except.ok (1, c)
  | Layer.dense u, (l, _) => Except.ok (l, u)

/-- Shape propagation through a layer stack. -/
def runLayers : List Layer → ℕ × ℕ → Except PyError (ℕ × ℕ)
  | [], s => Except.ok s
  | l :: ls, s => (layerOutShape l s).bind (runLayers ls)

/-- Output shape of `model.predict` on an input of shape `(l, c)`:
a result of `(1, 1)` is exactly one scalar per example. -/
def predictShape (m : KModel) (l c : ℕ) : Except PyError (ℕ × ℕ) :=
  runLayers m.layers (l, c)

/-- The shape-invariance property the claim asserts of one fixed model:
every 4-channel input length of at least 1 is accepted and produces one
scalar. -/
def acceptsAllLengths (m : KModel) : Prop :=
  ∀ L, 1 ≤ L → predictShape m L 4 = Except.ok (1, 1)

/-- Successful sequencing: when every element computation succeeds, the
comprehension returns the list of results. -/
lemma exceptSeq_map_ok {α β : Type} (f : β → Except PyError α) (g : β → α)
    (l : List β) (h : ∀ b ∈ l, f b = Except.ok (g b)) :
    exceptSeq (l.map f) = Except.ok (l.map g) := by
  induction l with
  | nil => rfl
  | cons x xs ih =>
    have hx := h x (by simp)
    have hrest := ih (fun b hb => h b (by simp [hb]))
    simp only [List.map_cons, exceptSeq, hx, hrest]

/-- C1: on the session `start = 0 s`, `end = 3600 s` with a channel of
2 samples, the analysis-module aligner anchors the last timestamp at
`end`, but the heart-rate entry point of the visualization module
produces 1800 as its last timestamp, not `end = 3600`; so not every
continuous-channel rendering entry point follows the claimed
`start + (end - start) * i / (n - 1)` alignment. -/
theorem claim1_viz_alignment_endpoint_bug :
    alignTimes 0 3600 2 = Except.ok [0, 3600]
    ∧ vizAlignTimes 0 3600 2 = Except.ok [0, 1800]
    ∧ (1800 : ℚ) ≠ 3600 := by
  refine ⟨?_, ?_, by norm_num⟩ <;>
    norm_num [alignTimes, alignTime, vizAlignTimes, vizAlignTime, pyDiv,
      exceptSeq, Except.map, List.range_succ]

/-- C6: a single-sample channel (`sample_count = 1`) makes the aligner
evaluate the division by `n - 1 = 0` and raise ZeroDivisionError; no
InvalidInput check is performed before the division. -/
theorem claim6_single_sample_zero_division :
    alignTimes 0 3600 1 = Except.error PyError.zeroDivision
    ∧ PyError.zeroDivision ≠ PyError.invalidInput := by
  refine ⟨?_, by decide⟩
  norm_num [alignTimes, alignTime, pyDiv, exceptSeq, Except.map, List.range_succ]

/-- C8 counterexample: the claim admits every input with `end ≥ start`,
but at `start = end = 0` with 2 samples the aligner returns the constant
sequence `[0, 0]`, which is not strictly increasing. -/
theorem claim8_constant_sequence_cex :
    alignTimes 0 0 2 = Except.ok [0, 0]
    ∧ ¬ List.Chain' (fun x y : ℚ => x < y) ([0, 0] : List ℚ) := by
  constructor
  · norm_num [alignTimes, alignTime, pyDiv, exceptSeq, Except.map, List.range_succ]
  · simp

/-- C8 (amended): for every session with `start < end` and every channel
with at least two samples, the aligner succeeds and the produced
timestamp sequence is strictly increasing. -/
theorem claim8_alignment_strictly_increasing (start finish : ℚ) (n : ℕ)
    (hlt : start < finish) (hn : 2 ≤ n) :
    ∃ ts, alignTimes start finish n = Except.ok ts
      ∧ List.Chain' (fun x y : ℚ => x < y) ts := by
  have hn2 : (2:ℚ) ≤ (n : ℚ) := by exact_mod_cast hn
  have hden : (0:ℚ) < (n : ℚ) - 1 := by linarith
  refine ⟨(List.range n).map
    (fun (i : ℕ) => start + (finish - start) * (i : ℚ) / ((n : ℚ) - 1)), ?_, ?_⟩
  · apply exceptSeq_map_ok
    intro i _
    simp [alignTime, pyDiv, Except.map, hden.ne']
  · rw [List.chain'_map]
    obtain ⟨m, rfl⟩ : ∃ m, n = m + 1 := ⟨n - 1, by omega⟩
    rw [List.chain'_range_succ]
    intro k _
    have hD : 0 < finish - start := by linarith
    have hk1 : (k : ℚ) < ((k + 1 : ℕ) : ℚ) := by push_cast; linarith
    have hmul : (finish - start) * (k : ℚ) < (finish - start) * ((k + 1 : ℕ) : ℚ) :=
      mul_lt_mul_of_pos_left hk1 hD
    have hdiv := (div_lt_div_iff_of_pos_right hden).mpr hmul
    linarith

/-- Distance of round-half-even from its argument is at most one half. -/
lemma rhe_close (x : ℚ) : |(rhe x : ℚ) - x| ≤ 1/2 := by
  have h0 : ((⌊x⌋ : ℤ) : ℚ) ≤ x := Int.floor_le x
  have h1 : x < ((⌊x⌋ : ℤ) : ℚ) + 1 := Int.lt_floor_add_one x
  unfold rhe
  split_ifs <;> rw [abs_le] <;> constructor <;> push_cast <;> linarith

/-- Rounding to one decimal moves a value by at most `1/20`. -/
lemma roundTo1_close (x : ℚ) : |roundTo1 x - x| ≤ 1/20 := by
  have h := abs_le.mp (rhe_close (10 * x))
  unfold roundTo1
  rw [abs_le]
  constructor <;> linarith [h.1, h.2]

/-- The first four naturals, spelled out. -/
lemma range_four : List.range 4 = [0, 1, 2, 3] := rfl

/-- The first five naturals, spelled out. -/
lemma range_five : List.range 5 = [0, 1, 2, 3, 4] := rfl

/-- A per-channel absolute sum is non-negative. -/
lemma channelAbsSum_nonneg (w : List (List (List ℚ))) (c : ℕ) :
    0 ≤ channelAbsSum w c := by
  apply List.sum_nonneg
  intro x hx
  simp only [List.mem_map] at hx
  obtain ⟨plane, -, rfl⟩ := hx
  apply List.sum_nonneg
  intro y hy
  simp only [List.mem_map] at hy
  obtain ⟨z, -, rfl⟩ := hy
  exact abs_nonneg z

/-- The four-channel total of absolute sums is non-negative. -/
lemma totalAbs4_nonneg (w : List (List (List ℚ))) : 0 ≤ totalAbs4 w := by
  unfold totalAbs4
  have h0 := channelAbsSum_nonneg w 0
  have h1 := channelAbsSum_nonneg w 1
  have h2 := channelAbsSum_nonneg w 2
  have h3 := channelAbsSum_nonneg w 3
  linarith

/-- Evaluation of the importance core on a kernel whose first plane has
exactly four input channels. -/
lemma importanceOfKernel_four (w : List (List (List ℚ)))
    (hch : ((w.head?).getD []).length = 4) :
    importanceOfKernel w = Except.ok
      [("heart_rate", nanDiv (channelAbsSum w 0) (totalAbs4 w)),
       ("hrv", nanDiv (channelAbsSum w 1) (totalAbs4 w)),
       ("spo2", nanDiv (channelAbsSum w 2) (totalAbs4 w)),
       ("wrist_temp", nanDiv (channelAbsSum w 3) (totalAbs4 w))] := by
  have htot : channelAbsSum w 0
      + (channelAbsSum w 1 + (channelAbsSum w 2 + channelAbsSum w 3))
      = totalAbs4 w := by
    unfold totalAbs4
    ring
  simp [importanceOfKernel, hch, range_four, channelNames, htot]

/-- Summing absolute values commutes with a scalar map. -/
lemma sum_map_abs_scale (c : ℚ) (l : List ℚ) :
    ((l.map (fun x => c * x)).map (fun x => |x|)).sum
      = |c| * ((l.map (fun x => |x|)).sum) := by
  induction l with
  | nil => simp
  | cons x xs ih =>
    simp only [List.map_cons, List.sum_cons, ih, abs_mul]
    ring

/-- Uniform kernel scaling multiplies each channel sum by `|c|`. -/
lemma channelAbsSum_scaleAll (c : ℚ) (w : List (List (List ℚ))) (i : ℕ) :
    channelAbsSum (scaleAll c w) i = |c| * channelAbsSum w i := by
  induction w with
  | nil => simp [channelAbsSum, scaleAll]
  | cons plane ws ih =>
    have hplane :
        ((((plane.map (fun row => row.map (fun x => c * x))).get? i).getD []).map
          (fun x => |x|)).sum
        = |c| * ((((plane.get? i).getD []).map (fun x => |x|)).sum) := by
      rw [List.get?_map]
      cases hpi : plane.get? i with
      | none => simp
      | some row =>
        simp only [Option.map_some', Option.getD_some, List.map_map]
        rw [← List.map_map]
        exact sum_map_abs_scale c row
    simp only [channelAbsSum, scaleAll, List.map_cons, List.sum_cons] at ih ⊢
    rw [hplane, ih]
    ring

/-- Uniform scaling multiplies the four-channel total by `|c|`. -/
lemma totalAbs4_scaleAll (c : ℚ) (w : List (List (List ℚ))) :
    totalAbs4 (scaleAll c w) = |c| * totalAbs4 w := by
  unfold totalAbs4
  rw [channelAbsSum_scaleAll, channelAbsSum_scaleAll, channelAbsSum_scaleAll,
    channelAbsSum_scaleAll]
  ring

/-- Uniform scaling preserves the head-plane channel count. -/
lemma scaleAll_head_length (c : ℚ) (w : List (List (List ℚ))) :
    (((scaleAll c w).head?).getD []).length = ((w.head?).getD []).length := by
  cases w <;> simp [scaleAll]

/-- Scaling numerator and denominator by the same nonzero factor leaves
the NaN-aware division unchanged. -/
lemma nanDiv_scale (c : ℚ) (hc : c ≠ 0) (a t : ℚ) :
    nanDiv (|c| * a) (|c| * t) = nanDiv a t := by
  have habs : |c| ≠ 0 := abs_ne_zero.mpr hc
  unfold nanDiv
  by_cases ht : t = 0
  · simp [ht]
  · rw [if_neg (mul_ne_zero habs ht), if_neg ht, mul_div_mul_left a t habs]

/-- C3: on the all-zero stage mapping, both stage-breakdown renderers
evaluate `0 / 0 * 100` and raise ZeroDivisionError at the first label,
producing no artifact; no DegenerateInput rejection happens before the
division. -/
theorem claim3_zero_total_zero_division :
    generate_sleep_stage_pie_chart
        [("deep", 0), ("rem", 0), ("light", 0), ("awake", 0)]
      = Except.error PyError.zeroDivision
    ∧ PyError.zeroDivision ≠ PyError.degenerateInput := by
  refine ⟨?_, by decide⟩
  norm_num [generate_sleep_stage_pie_chart, stageNames, stageLabel, stageGet,
    stagesTotal, pyDiv, exceptSeq, Except.map]

set_option maxRecDepth 8000 in
/-- C4 counterexample: the stage mapping `deep:1, rem:1, light:1,
awake:13` (total 16, so every §3 invariant holds) renders percentages
6.2, 6.2, 6.2 and 81.2 — the exact values 6.25 and 81.25 are ties that
round to even — whose sum 99.8 misses 100.0 by 0.2, more than the
claimed 0.1 tolerance. -/
theorem claim4_rounded_percentages_cex :
    generate_sleep_stage_pie_chart
        [("deep", 1), ("rem", 1), ("light", 1), ("awake", 13)]
      = Except.ok
        [⟨"deep", 1, 31/5⟩, ⟨"rem", 1, 31/5⟩,
         ⟨"light", 1, 31/5⟩, ⟨"awake", 13, 406/5⟩]
    ∧ (1/10 : ℚ) <
        |(([⟨"deep", 1, 31/5⟩, ⟨"rem", 1, 31/5⟩,
            ⟨"light", 1, 31/5⟩, ⟨"awake", 13, 406/5⟩] :
          List StageLabel).map StageLabel.pct).sum - 100| := by
  constructor
  · have h1 : roundTo1 (25/4) = 31/5 := by
      have harg : (10:ℚ) * (25/4) = 125/2 := by norm_num
      have hf : ⌊(125/2:ℚ)⌋ = 62 := by norm_num [Int.floor_eq_iff]
      rw [roundTo1, rhe, harg, hf]
      norm_num
    have h2 : roundTo1 (325/4) = 406/5 := by
      have harg : (10:ℚ) * (325/4) = 1625/2 := by norm_num
      have hf : ⌊(1625/2:ℚ)⌋ = 812 := by norm_num [Int.floor_eq_iff]
      rw [roundTo1, rhe, harg, hf]
      norm_num
    have htot : stagesTotal
        [("deep", 1), ("rem", 1), ("light", 1), ("awake", 13)] = 16 := by
      norm_num [stagesTotal]
    have hgd : stageGet
        [("deep", 1), ("rem", 1), ("light", 1), ("awake", 13)] ("deep") = 1 := rfl
    have hgr : stageGet
        [("deep", 1), ("rem", 1), ("light", 1), ("awake", 13)] ("rem") = 1 := rfl
    have hgl : stageGet
        [("deep", 1), ("rem", 1), ("light", 1), ("awake", 13)] ("light") = 1 := rfl
    have hga : stageGet
        [("deep", 1), ("rem", 1), ("light", 1), ("awake", 13)] ("awake") = 13 := rfl
    simp only [generate_sleep_stage_pie_chart, stageNames, htot, List.map_cons,
      List.map_nil, stageLabel]
    rw [hgd, hgr, hgl, hga]
    norm_num [pyDiv, Except.map, exceptSeq, h1, h2]
  · have hsum : (([⟨"deep", 1, 31/5⟩, ⟨"rem", 1, 31/5⟩,
        ⟨"light", 1, 31/5⟩, ⟨"awake", 13, 406/5⟩] :
        List StageLabel).map StageLabel.pct).sum = 499/5 := by
      norm_num
    rw [hsum, show |(499/5 : ℚ) - 100| = 1/5 by
      rw [abs_sub_comm, abs_of_pos] <;> norm_num]
    norm_num

/-- C4 (amended): for every stage mapping satisfying the §3 invariant
(all four keys, non-negative durations, positive total `T`), the
breakdown renders all four stages — zero-duration stages included —
each labelled with its minutes and its percentage `duration / T * 100`
rounded to one decimal, and the rounded percentages sum to 100.0 within
0.2 (four roundings of at most 0.05 each; 0.1 is exceeded by the
counterexample). -/
theorem claim4_stage_breakdown_complete (d r l a T : ℚ)
    (hd : 0 ≤ d) (hr : 0 ≤ r) (hl : 0 ≤ l) (ha : 0 ≤ a)
    (hTdef : d + r + l + a = T) (hT : 0 < T) :
    generate_sleep_stage_pie_chart
        [("deep", d), ("rem", r), ("light", l), ("awake", a)]
      = Except.ok
        [⟨"deep", d, roundTo1 (d / T * 100)⟩,
         ⟨"rem", r, roundTo1 (r / T * 100)⟩,
         ⟨"light", l, roundTo1 (l / T * 100)⟩,
         ⟨"awake", a, roundTo1 (a / T * 100)⟩]
    ∧ |(roundTo1 (d / T * 100) + roundTo1 (r / T * 100)
        + roundTo1 (l / T * 100) + roundTo1 (a / T * 100)) - 100| ≤ 1/5 := by
  have hT0 : T ≠ 0 := ne_of_gt hT
  have hsum : d / T * 100 + r / T * 100 + l / T * 100 + a / T * 100 = 100 := by
    field_simp
    linarith
  constructor
  · have htot : stagesTotal
        [("deep", d), ("rem", r), ("light", l), ("awake", a)] = T := by
      simp [stagesTotal]
      linarith
    simp [generate_sleep_stage_pie_chart, stageNames, stageLabel, stageGet,
      htot, pyDiv, hT0, exceptSeq, Except.map]
  · have h1 := abs_le.mp (roundTo1_close (d / T * 100))
    have h2 := abs_le.mp (roundTo1_close (r / T * 100))
    have h3 := abs_le.mp (roundTo1_close (l / T * 100))
    have h4 := abs_le.mp (roundTo1_close (a / T * 100))
    rw [abs_le]
    constructor <;> linarith [h1.1, h1.2, h2.1, h2.2, h3.1, h3.2, h4.1, h4.2]

/-- C4 witness: the amended statement at the §8 scenario mapping
`deep:90, rem:80, light:200, awake:10` with total 380. -/
theorem claim4_stage_breakdown_complete_witness :
    (0:ℚ) ≤ 90 ∧ (90:ℚ) + 80 + 200 + 10 = 380 ∧ (0:ℚ) < 380 ∧
    (generate_sleep_stage_pie_chart
        [("deep", 90), ("rem", 80), ("light", 200), ("awake", 10)]
      = Except.ok
        [⟨"deep", 90, roundTo1 (90 / 380 * 100)⟩,
         ⟨"rem", 80, roundTo1 (80 / 380 * 100)⟩,
         ⟨"light", 200, roundTo1 (200 / 380 * 100)⟩,
         ⟨"awake", 10, roundTo1 (10 / 380 * 100)⟩]
    ∧ |(roundTo1 (90 / 380 * 100) + roundTo1 (80 / 380 * 100)
        + roundTo1 (200 / 380 * 100) + roundTo1 (10 / 380 * 100)) - 100| ≤ 1/5) :=
  ⟨by norm_num, by norm_num, by norm_num,
    claim4_stage_breakdown_complete 90 80 200 10 380 (by norm_num) (by norm_num)
      (by norm_num) (by norm_num) (by norm_num) (by norm_num)⟩

/-- C8 witness: the amended statement at the concrete session
`start = 0`, `end = 3600` with 2 samples. -/
theorem claim8_alignment_strictly_increasing_witness :
    (0:ℚ) < 3600 ∧ 2 ≤ 2 ∧
    ∃ ts, alignTimes 0 3600 2 = Except.ok ts
      ∧ List.Chain' (fun x y : ℚ => x < y) ts :=
  ⟨by norm_num, by norm_num,
    claim8_alignment_strictly_increasing 0 3600 2 (by norm_num) (by norm_num)⟩

/-- C2 counterexample: two models satisfying the §4.4 precondition (at
least one convolutional layer with exactly 4 input channels) on which
the claimed output contract fails: with an all-zero kernel the
normalization divides 0 by 0 and every weight is NaN rather than a
non-negative number summing to 1, and with the 4-channel convolution at
layer index 2 instead of 1 the positional read `layers[1]` hits the
weightless pooling layer and raises IndexError. -/
theorem claim2_importance_cex :
    hasConv4 ⟨[Layer.inputL 480 4,
      Layer.conv1d 1 1 [[[0], [0], [0], [0]]]]⟩ = true
    ∧ ¬ importanceOutputInvariant ⟨[Layer.inputL 480 4,
        Layer.conv1d 1 1 [[[0], [0], [0], [0]]]]⟩
    ∧ hasConv4 ⟨[Layer.inputL 480 4, Layer.maxPool 2,
        Layer.conv1d 1 1 [[[1], [1], [1], [1]]]]⟩ = true
    ∧ ¬ importanceOutputInvariant ⟨[Layer.inputL 480 4, Layer.maxPool 2,
        Layer.conv1d 1 1 [[[1], [1], [1], [1]]]]⟩ := by
  refine ⟨rfl, ?_, rfl, ?_⟩
  · rintro ⟨l, hl, -, hvals, -⟩
    have hred : compute_channel_importance ⟨[Layer.inputL 480 4,
        Layer.conv1d 1 1 [[[0], [0], [0], [0]]]]⟩
        = importanceOfKernel [[[(0:ℚ)], [0], [0], [0]]] := rfl
    have hcomp : importanceOfKernel [[[(0:ℚ)], [0], [0], [0]]]
        = Except.ok [("heart_rate", none), ("hrv", none),
          ("spo2", none), ("wrist_temp", none)] := by
      norm_num [importanceOfKernel, channelAbsSum, nanDiv, channelNames,
        range_four]
    rw [hred, hcomp] at hl
    injection hl with h2
    subst h2
    obtain ⟨q, hq, -⟩ := hvals ("heart_rate", none) (by simp)
    exact Option.noConfusion hq
  · rintro ⟨l, hl, -, -, -⟩
    have hred : compute_channel_importance ⟨[Layer.inputL 480 4,
        Layer.maxPool 2, Layer.conv1d 1 1 [[[1], [1], [1], [1]]]]⟩
        = Except.error PyError.indexError := rfl
    rw [hred] at hl
    exact Except.noConfusion hl

/-- C2 (amended): for every model whose layer at positional index 1 is a
convolutional layer with exactly 4 input channels and nonzero total
absolute weight, the extractor returns the four fixed channel names
mapped to the per-channel absolute sums divided by their total; the
weights are non-negative and sum to exactly 1. -/
theorem claim2_importance_normalized (m : KModel) (f ks : ℕ)
    (w : List (List (List ℚ)))
    (hL : m.layers.get? 1 = some (Layer.conv1d f ks w))
    (hne : w ≠ []) (hsh : ∀ p ∈ w, p.length = 4)
    (hT : totalAbs4 w ≠ 0) :
    compute_channel_importance m = Except.ok
      [("heart_rate", some (channelAbsSum w 0 / totalAbs4 w)),
       ("hrv", some (channelAbsSum w 1 / totalAbs4 w)),
       ("spo2", some (channelAbsSum w 2 / totalAbs4 w)),
       ("wrist_temp", some (channelAbsSum w 3 / totalAbs4 w))]
    ∧ (∀ c, 0 ≤ channelAbsSum w c / totalAbs4 w)
    ∧ channelAbsSum w 0 / totalAbs4 w + channelAbsSum w 1 / totalAbs4 w
      + channelAbsSum w 2 / totalAbs4 w + channelAbsSum w 3 / totalAbs4 w
      = 1 := by
  have hpos : 0 < totalAbs4 w := lt_of_le_of_ne (totalAbs4_nonneg w) (Ne.symm hT)
  have hch : ((w.head?).getD []).length = 4 := by
    cases w with
    | nil => exact absurd rfl hne
    | cons p t => exact hsh p (by simp)
  refine ⟨?_, ?_, ?_⟩
  · have hred : compute_channel_importance m = importanceOfKernel w := by
      unfold compute_channel_importance
      rw [hL]
      rfl
    rw [hred, importanceOfKernel_four w hch]
    simp [nanDiv, hT]
  · intro c
    exact div_nonneg (channelAbsSum_nonneg w c) (le_of_lt hpos)
  · rw [div_add_div_same, div_add_div_same, div_add_div_same]
    have hfold : channelAbsSum w 0 + channelAbsSum w 1 + channelAbsSum w 2
        + channelAbsSum w 3 = totalAbs4 w := rfl
    rw [hfold]
    exact div_self hT

/-- C2 witness: the amended statement at a one-position, one-filter
kernel with unit weight on each of the four channels. -/
theorem claim2_importance_normalized_witness :
    ((⟨[Layer.inputL 480 4, Layer.conv1d 1 1 [[[1], [1], [1], [1]]]]⟩ :
        KModel).layers.get? 1
      = some (Layer.conv1d 1 1 [[[1], [1], [1], [1]]]))
    ∧ ([[[1], [1], [1], [1]]] : List (List (List ℚ))) ≠ []
    ∧ (∀ p ∈ ([[[1], [1], [1], [1]]] : List (List (List ℚ))), p.length = 4)
    ∧ totalAbs4 [[[1], [1], [1], [1]]] ≠ 0
    ∧ (compute_channel_importance ⟨[Layer.inputL 480 4,
        Layer.conv1d 1 1 [[[1], [1], [1], [1]]]]⟩ = Except.ok
        [("heart_rate", some (channelAbsSum [[[1], [1], [1], [1]]] 0
            / totalAbs4 [[[1], [1], [1], [1]]])),
         ("hrv", some (channelAbsSum [[[1], [1], [1], [1]]] 1
            / totalAbs4 [[[1], [1], [1], [1]]])),
         ("spo2", some (channelAbsSum [[[1], [1], [1], [1]]] 2
            / totalAbs4 [[[1], [1], [1], [1]]])),
         ("wrist_temp", some (channelAbsSum [[[1], [1], [1], [1]]] 3
            / totalAbs4 [[[1], [1], [1], [1]]]))]
      ∧ (∀ c, 0 ≤ channelAbsSum [[[1], [1], [1], [1]]] c
          / totalAbs4 [[[1], [1], [1], [1]]])
      ∧ channelAbsSum [[[1], [1], [1], [1]]] 0 / totalAbs4 [[[1], [1], [1], [1]]]
        + channelAbsSum [[[1], [1], [1], [1]]] 1 / totalAbs4 [[[1], [1], [1], [1]]]
        + channelAbsSum [[[1], [1], [1], [1]]] 2 / totalAbs4 [[[1], [1], [1], [1]]]
        + channelAbsSum [[[1], [1], [1], [1]]] 3 / totalAbs4 [[[1], [1], [1], [1]]]
        = 1) :=
  ⟨rfl, by simp, by
    intro p hp
    simp only [List.mem_singleton] at hp
    rw [hp]
    rfl,
   by norm_num [totalAbs4, channelAbsSum],
   claim2_importance_normalized
     ⟨[Layer.inputL 480 4, Layer.conv1d 1 1 [[[1], [1], [1], [1]]]]⟩ 1 1
     [[[1], [1], [1], [1]]] rfl (by simp)
     (by
       intro p hp
       simp only [List.mem_singleton] at hp
       rw [hp]
       rfl)
     (by norm_num [totalAbs4, channelAbsSum])⟩

/-- C5 counterexample: the model built for `input_length = 480` rejects
a 4-channel input of length 10 with a shape ValueError — the Input layer
pins the static length, so `predict` does not accept every length
`L ≥ 1`. -/
theorem claim5_fixed_length_cex :
    ¬ acceptsAllLengths (build_sleep_cnn 480 4
      (fun _ _ _ => 0) (fun _ _ _ => 0)) := by
  intro h
  have h10 := h 10 (by norm_num)
  have hc : predictShape (build_sleep_cnn 480 4
      (fun _ _ _ => 0) (fun _ _ _ => 0)) 10 4
      = Except.error PyError.valueError := rfl
  rw [hc] at h10
  exact Except.noConfusion h10

/-- C5 (amended): for a model built with `input_length = L0`, `predict`
accepts a 4-channel input exactly when its length equals `L0` — then it
returns exactly one scalar — and rejects every other length with a shape
ValueError; accepting a different length requires rebuilding the
model. -/
theorem claim5_predict_fixed_length (L0 L : ℕ) (i1 i2 : ℕ → ℕ → ℕ → ℚ) :
    predictShape (build_sleep_cnn L0 4 i1 i2) L 4
      = if L = L0 then Except.ok (1, 1)
        else Except.error PyError.valueError := by
  by_cases h : L = L0
  · subst h
    simp [predictShape, build_sleep_cnn, runLayers, layerOutShape, Except.bind]
  · rw [if_neg h]
    simp [predictShape, build_sleep_cnn, runLayers, layerOutShape,
      Except.bind, h]

/-- C7 counterexample: re-scaling the two output channels of a
conforming kernel by the distinct factors 1 and 3 changes the extracted
importances (from a half each on the first two channels to a quarter and
three quarters), so the extraction is not stable under arbitrary
per-output-channel re-scaling. -/
theorem claim7_output_rescaling_cex :
    importanceOfKernel (scaleOutputs [1, 3] [[[1, 0], [0, 1], [0, 0], [0, 0]]])
      ≠ importanceOfKernel [[[1, 0], [0, 1], [0, 0], [0, 0]]] := by
  have hL : importanceOfKernel
      (scaleOutputs [1, 3] [[[1, 0], [0, 1], [0, 0], [0, 0]]])
      = Except.ok [("heart_rate", some (1/4)), ("hrv", some (3/4)),
        ("spo2", some 0), ("wrist_temp", some 0)] := by
    norm_num [scaleOutputs, importanceOfKernel, channelAbsSum, nanDiv,
      channelNames, range_four]
  have hR : importanceOfKernel [[[1, 0], [0, 1], [0, 0], [0, 0]]]
      = Except.ok [("heart_rate", some (1/2)), ("hrv", some (1/2)),
        ("spo2", some 0), ("wrist_temp", some 0)] := by
    norm_num [importanceOfKernel, channelAbsSum, nanDiv, channelNames,
      range_four]
  rw [hL, hR]
  intro heq
  injection heq with h2
  norm_num at h2

/-- C7 (amended): for every conforming kernel and every uniform
re-scaling of the whole weight tensor by one nonzero scalar, the
extracted importances are unchanged (the normalization cancels the
common factor); per-output-channel factors are not cancelled in
general. -/
theorem claim7_uniform_rescaling (w : List (List (List ℚ)))
    (hne : w ≠ []) (hsh : ∀ p ∈ w, p.length = 4) (c : ℚ) (hc : c ≠ 0) :
    importanceOfKernel (scaleAll c w) = importanceOfKernel w := by
  have hch : ((w.head?).getD []).length = 4 := by
    cases w with
    | nil => exact absurd rfl hne
    | cons p t => exact hsh p (by simp)
  have hchS : (((scaleAll c w).head?).getD []).length = 4 := by
    rw [scaleAll_head_length]
    exact hch
  rw [importanceOfKernel_four w hch, importanceOfKernel_four (scaleAll c w) hchS]
  rw [channelAbsSum_scaleAll, channelAbsSum_scaleAll, channelAbsSum_scaleAll,
    channelAbsSum_scaleAll, totalAbs4_scaleAll]
  rw [nanDiv_scale c hc, nanDiv_scale c hc, nanDiv_scale c hc, nanDiv_scale c hc]

/-- C7 witness: the amended statement for the unit kernel scaled
uniformly by 2. -/
theorem claim7_uniform_rescaling_witness :
    ([[[1], [1], [1], [1]]] : List (List (List ℚ))) ≠ []
    ∧ (∀ p ∈ ([[[1], [1], [1], [1]]] : List (List (List ℚ))), p.length = 4)
    ∧ (2:ℚ) ≠ 0
    ∧ importanceOfKernel (scaleAll 2 [[[1], [1], [1], [1]]])
        = importanceOfKernel [[[1], [1], [1], [1]]] :=
  ⟨by simp, by
    intro p hp
    simp only [List.mem_singleton] at hp
    rw [hp]
    rfl,
   by norm_num,
   claim7_uniform_rescaling [[[1], [1], [1], [1]]] (by simp)
     (by
       intro p hp
       simp only [List.mem_singleton] at hp
       rw [hp]
       rfl) 2 (by norm_num)⟩

/-- C9: a model whose only convolutional layer has five input channels —
so no convolutional layer with exactly 4 input channels exists — does
not fail with any error: the extractor silently normalizes over all five
channels and returns the first four entries, each one fifth. -/
theorem claim9_five_channel_no_error :
    hasConv4 ⟨[Layer.inputL 480 5,
      Layer.conv1d 1 1 [[[1], [1], [1], [1], [1]]]]⟩ = false
    ∧ compute_channel_importance ⟨[Layer.inputL 480 5,
        Layer.conv1d 1 1 [[[1], [1], [1], [1], [1]]]]⟩
      = Except.ok [("heart_rate", some (1/5)), ("hrv", some (1/5)),
        ("spo2", some (1/5)), ("wrist_temp", some (1/5))] := by
  refine ⟨rfl, ?_⟩
  have hred : compute_channel_importance ⟨[Layer.inputL 480 5,
      Layer.conv1d 1 1 [[[1], [1], [1], [1], [1]]]]⟩
      = importanceOfKernel [[[(1:ℚ)], [1], [1], [1], [1]]] := rfl
  rw [hred]
  norm_num [importanceOfKernel, channelAbsSum, nanDiv, channelNames,
    range_four, range_five]

/-- C10: for every input length and weight initialization, the model
built by `build_sleep_cnn` with 4 channels has its first Conv1D layer at
positional index 1 with exactly 4 input channels, the importance
extractor reads exactly that kernel, and it returns a mapping over
exactly the four fixed channel names. -/
theorem claim10_first_conv_four_channels (L : ℕ) (i1 i2 : ℕ → ℕ → ℕ → ℚ) :
    (build_sleep_cnn L 4 i1 i2).layers.get? 1
        = some (Layer.conv1d 32 5 (convKernel 5 4 32 i1))
    ∧ (build_sleep_cnn L 4 i1 i2).layers.findIdx isConvLayer = 1
    ∧ (∀ p ∈ convKernel 5 4 32 i1, p.length = 4)
    ∧ compute_channel_importance (build_sleep_cnn L 4 i1 i2)
        = importanceOfKernel (convKernel 5 4 32 i1)
    ∧ ∃ lres, compute_channel_importance (build_sleep_cnn L 4 i1 i2)
        = Except.ok lres ∧ lres.map Prod.fst = channelNames := by
  have hch : (((convKernel 5 4 32 i1).head?).getD []).length = 4 := by
    simp [convKernel, range_five, range_four]
  have hred : compute_channel_importance (build_sleep_cnn L 4 i1 i2)
      = importanceOfKernel (convKernel 5 4 32 i1) := rfl
  refine ⟨rfl, rfl, ?_, hred, ?_⟩
  · intro p hp
    simp only [convKernel, List.mem_map] at hp
    obtain ⟨a, -, rfl⟩ := hp
    simp
  · rw [hred, importanceOfKernel_four _ hch]
    exact ⟨_, rfl, rfl⟩
